import Mathlib

/-!
Verification of the weather agent module
(`agent_framework_ag_ui_examples/agents/weather_agent.py`).

The module defines two tool functions, `get_weather` and `get_forecast`,
and a factory `weather_agent` that forwards a fixed configuration to the
external `ChatAgent` constructor.  The Python functions are embedded
shallowly below: the dictionary becomes an association list, the
f-strings become explicit concatenations, the `for` loop over
`range(1, min(days, 7) + 1)` becomes a map over `List.range' 1 _`, and
Python `int` becomes `Int`.
-/

/-- A weather record as returned by `get_weather`: exactly the five
attributes appearing in every literal of the Python dictionary. -/
structure WeatherRecord where
  temperature : Int
  conditions : String
  humidity : Int
  wind_speed : Int
  feels_like : Int
deriving DecidableEq, Repr

/-- The literal `weather_data` table of `get_weather`, keyed by lowercase
location name, in source order. -/
def weather_data : List (String × WeatherRecord) :=
  [("seattle", ⟨11, "rainy", 75, 12, 10⟩),
   ("san francisco", ⟨14, "foggy", 85, 8, 13⟩),
   ("new york city", ⟨18, "sunny", 60, 10, 17⟩),
   ("miami", ⟨29, "hot and humid", 90, 5, 32⟩),
   ("chicago", ⟨9, "windy", 65, 20, 6⟩)]

/-- The literal default record returned by `get_weather` on a miss. -/
def defaultWeather : WeatherRecord := ⟨21, "partly cloudy", 50, 10, 20⟩

/-- Embedding of Python `str.lower()`: lowercase every character.  (`Char.toLower`
lowercases the ASCII range, which covers every string the table or the spec
mentions.) -/
def strLower (s : String) : String := String.mk (s.data.map Char.toLower)

/-- Embedding of `get_weather`: lowercase the location, look it up in the
table, fall back to the default record. -/
def get_weather (location : String) : WeatherRecord :=
  match weather_data.lookup (strLower location) with
  | some r => r
  | none => defaultWeather

/-- One line of the forecast loop body:
`f"Day {day}: Partly cloudy, {60 + day * 2}°F"`. -/
def dayLine (day : Nat) : String :=
  "Day " ++ toString day ++ ": Partly cloudy, " ++ toString (60 + day * 2) ++ "°F"

/-- Embedding of `get_forecast`: the loop `for day in range(1, min(days, 7) + 1)`
appends one `dayLine` per day; the result is the header followed by the
newline-joined lines.  `Int.toNat` captures that a Python `range` with an
upper bound below its lower bound is empty. -/
def get_forecast (location : String) (days : Int) : String :=
  let forecast := (List.range' 1 (min days 7).toNat).map dayLine
  toString days ++ "-day forecast for " ++ location ++ ":\n" ++
    String.intercalate "\n" forecast

/-- Embedding of `get_weather` together with its logger side channel: the
log is an explicit list of emitted lines, and the function appends to it.
Only the `logger.info` lines are rendered; the `logger.debug` lines add
nothing the claims mention. -/
def get_weatherLog (location : String) (log : List String) :
    WeatherRecord × List String :=
  let log := log ++ ["[get_weather] Called with location: " ++ location]
  match weather_data.lookup (strLower location) with
  | some r =>
      (r, log ++ ["[get_weather] Found weather data for " ++ strLower location])
  | none =>
      (defaultWeather,
       log ++ ["[get_weather] Using default weather data for " ++ strLower location])

/-- Embedding of `get_forecast` together with its logger side channel. -/
def get_forecastLog (location : String) (days : Int) (log : List String) :
    String × List String :=
  let log := log ++ ["[get_forecast] Called with location: " ++ location]
  let forecast := (List.range' 1 (min days 7).toNat).map dayLine
  let result := toString days ++ "-day forecast for " ++ location ++ ":\n" ++
    String.intercalate "\n" forecast
  (result, log ++ ["[get_forecast] Generated forecast: " ++ result])

/-- A tool registered with the agent: either the weather function or the
forecast function, carried with the function itself. -/
inductive Tool where
  | weatherFn (f : String → WeatherRecord)
  | forecastFn (f : String → Int → String)

/-- Modelled from the spec: the external `ChatAgent` constructor is not in
the sources; per the spec the returned handle records the supplied name,
instruction string, client reference and tool list, so it is modelled as
a record of exactly those four configuration values. -/
structure ChatAgent (C : Type) where
  name : String
  instructions : String
  chat_client : C
  tools : List Tool

/-- The literal instruction string passed by `weather_agent`. -/
def agentInstructions : String :=
  "You are a helpful weather assistant. " ++
  "Use the get_weather and get_forecast functions to help users with weather information. " ++
  "Always provide friendly and informative responses."

/-- Embedding of the `weather_agent` factory: it forwards the fixed name,
the fixed instruction string, the supplied client and the two tools to the
`ChatAgent` constructor and returns the result. -/
def weather_agent {C : Type} (chat_client : C) : ChatAgent C :=
  ChatAgent.mk "weather_agent" agentInstructions chat_client
    [Tool.weatherFn get_weather, Tool.forecastFn get_forecast]

/-- Modelled from the spec: the external `ChatAgent` constructor may raise;
`weather_agentE` is `weather_agent` with the constructor abstracted as a
fallible function (`Except` models a Python exception), applied to the
same configuration record and returned without any handling. -/
def weather_agentE {C H E : Type} (ctor : ChatAgent C → Except E H)
    (chat_client : C) : Except E H :=
  ctor (weather_agent chat_client)

/-- A lookup that returns `some` yields a value of the table. -/
theorem mem_map_snd_of_lookup {β : Type} (l : List (String × β)) (k : String)
    (v : β) (h : l.lookup k = some v) : v ∈ l.map Prod.snd := by
  induction l with
  | nil => simp [List.lookup] at h
  | cons p t ih =>
      rw [List.lookup] at h
      cases hk : k == p.1 with
      | true =>
          rw [hk] at h
          have h2 : p.2 = v := Option.some.inj h
          rw [← h2]
          exact List.mem_map_of_mem Prod.snd (List.mem_cons_self p t)
      | false =>
          rw [hk] at h
          exact List.mem_cons_of_mem _ (ih h)

/-- A key absent from the table looks up to `none`. -/
theorem lookup_eq_none_of_not_mem {β : Type} (l : List (String × β))
    (k : String) (h : k ∉ l.map Prod.fst) : l.lookup k = none := by
  induction l with
  | nil => rfl
  | cons p t ih =>
      simp only [List.map_cons, List.mem_cons, not_or] at h
      have hk : (k == p.1) = false := beq_eq_false_iff_ne.mpr h.1
      rw [List.lookup, hk]
      exact ih h.2

/-- C1: for every casing of each of the five known locations (any string
lowercasing to the key), `get_weather` returns exactly the literal record of
the internal table for that location. -/
theorem get_weather_known_locations (s : String) :
    (strLower s = "seattle" → get_weather s = ⟨11, "rainy", 75, 12, 10⟩) ∧
    (strLower s = "san francisco" → get_weather s = ⟨14, "foggy", 85, 8, 13⟩) ∧
    (strLower s = "new york city" → get_weather s = ⟨18, "sunny", 60, 10, 17⟩) ∧
    (strLower s = "miami" → get_weather s = ⟨29, "hot and humid", 90, 5, 32⟩) ∧
    (strLower s = "chicago" → get_weather s = ⟨9, "windy", 65, 20, 6⟩) := by
  refine ⟨fun h => ?_, fun h => ?_, fun h => ?_, fun h => ?_, fun h => ?_⟩ <;>
    (unfold get_weather; rw [h]; decide)

/-- Witness for C1 at the mixed-case input "SEATTLE". -/
theorem get_weather_known_locations_witness :
    strLower "SEATTLE" = "seattle" ∧ get_weather "SEATTLE" = ⟨11, "rainy", 75, 12, 10⟩ :=
  ⟨by decide, (get_weather_known_locations "SEATTLE").1 (by decide)⟩

/-- C2: every input whose lowercased form is not a key of the table gets
exactly the default record; `get_weather` is a total function. -/
theorem get_weather_unknown_default (s : String)
    (h : strLower s ∉ weather_data.map Prod.fst) :
    get_weather s = defaultWeather := by
  unfold get_weather
  rw [lookup_eq_none_of_not_mem _ _ h]

/-- Witness for C2 at the inputs "Tokyo" and "". -/
theorem get_weather_unknown_default_witness :
    (strLower "Tokyo" ∉ weather_data.map Prod.fst ∧ get_weather "Tokyo" = defaultWeather) ∧
    (strLower "" ∉ weather_data.map Prod.fst ∧ get_weather "" = defaultWeather) :=
  ⟨⟨by decide, get_weather_unknown_default "Tokyo" (by decide)⟩,
   ⟨by decide, get_weather_unknown_default "" (by decide)⟩⟩

/-- C3: for days ≥ 1 the forecast is the header with the unclamped count,
followed by one line per day from 1 to min(days, 7) of the form
"Day n: Partly cloudy, (60 + 2n)°F"; `get_forecast "Paris" 10` has exactly
7 forecast lines. -/
theorem get_forecast_format (location : String) (days : Int) (h : 1 ≤ days) :
    get_forecast location days =
      toString days ++ "-day forecast for " ++ location ++ ":\n" ++
        String.intercalate "\n" ((List.range' 1 (min days 7).toNat).map dayLine) ∧
    ((List.range' 1 (min days 7).toNat).map dayLine).length = (min days 7).toNat ∧
    1 ≤ (min days 7).toNat ∧
    (∀ n ∈ List.range' 1 (min days 7).toNat,
      dayLine n =
        "Day " ++ toString n ++ ": Partly cloudy, " ++ toString (60 + 2 * n) ++ "°F") ∧
    ((List.range' 1 (min (10 : Int) 7).toNat).map dayLine).length = 7 ∧
    get_forecast "Paris" 10 =
      "10-day forecast for Paris:\nDay 1: Partly cloudy, 62°F\nDay 2: Partly cloudy, 64°F\nDay 3: Partly cloudy, 66°F\nDay 4: Partly cloudy, 68°F\nDay 5: Partly cloudy, 70°F\nDay 6: Partly cloudy, 72°F\nDay 7: Partly cloudy, 74°F" := by
  refine ⟨rfl, ?_, ?_, ?_, by decide, rfl⟩
  · rw [List.length_map, List.length_range']
  · omega
  · intro n _
    unfold dayLine
    rw [Nat.mul_comm n 2]

/-- Witness for C3 at location "Paris" and days = 10. -/
theorem get_forecast_format_witness :
    (1 : Int) ≤ 10 ∧
    ((List.range' 1 (min (10 : Int) 7).toNat).map dayLine).length = (min (10 : Int) 7).toNat :=
  ⟨by decide, (get_forecast_format "Paris" 10 (by decide)).2.1⟩

/-- C4: `get_forecast "Paris" 3` is exactly the documented three-line string. -/
theorem get_forecast_paris_three :
    get_forecast "Paris" 3 =
      "3-day forecast for Paris:\nDay 1: Partly cloudy, 62°F\nDay 2: Partly cloudy, 64°F\nDay 3: Partly cloudy, 66°F" :=
  rfl

/-- C5: for days ≤ 0 the loop contributes no lines and the output is the
header alone (the format string ends in a newline); no failure for any days. -/
theorem get_forecast_nonpositive (location : String) (days : Int) (h : days ≤ 0) :
    get_forecast location days =
      toString days ++ "-day forecast for " ++ location ++ ":\n" ∧
    (List.range' 1 (min days 7).toNat).map dayLine = [] := by
  have h0 : (min days 7).toNat = 0 := by omega
  constructor
  · show toString days ++ "-day forecast for " ++ location ++ ":\n" ++
        String.intercalate "\n" ((List.range' 1 (min days 7).toNat).map dayLine) = _
    rw [h0]
    exact String.append_empty _
  · rw [h0]
    rfl

/-- Witness for C5 at location "Paris" and days = 0. -/
theorem get_forecast_nonpositive_witness :
    (0 : Int) ≤ 0 ∧ get_forecast "Paris" 0 = "0-day forecast for Paris:\n" :=
  ⟨by decide, (get_forecast_nonpositive "Paris" 0 (by decide)).1⟩

/-- C6: the factory forwards exactly the fixed name, the fixed instruction
string, the supplied client unchanged, and the two tool functions; the
returned handle records that name and exactly those two tools. -/
theorem weather_agent_config {C : Type} (chat_client : C) :
    (weather_agent chat_client).name = "weather_agent" ∧
    (weather_agent chat_client).instructions =
      "You are a helpful weather assistant. " ++
      "Use the get_weather and get_forecast functions to help users with weather information. " ++
      "Always provide friendly and informative responses." ∧
    (weather_agent chat_client).chat_client = chat_client ∧
    (weather_agent chat_client).tools =
      [Tool.weatherFn get_weather, Tool.forecastFn get_forecast] :=
  ⟨rfl, rfl, rfl, rfl⟩

/-- C7: the factory has no handling path: if the constructor fails, the same
error comes out unchanged; if it succeeds, its result comes out unchanged. -/
theorem weather_agent_passthrough {C H E : Type}
    (ctor : ChatAgent C → Except E H) (chat_client : C) :
    (∀ e : E, ctor (weather_agent chat_client) = Except.error e →
      weather_agentE ctor chat_client = Except.error e) ∧
    (∀ r : H, ctor (weather_agent chat_client) = Except.ok r →
      weather_agentE ctor chat_client = Except.ok r) :=
  ⟨fun _ he => he, fun _ hr => hr⟩

/-- Witness for C7 with a constructor that fails and one that succeeds. -/
theorem weather_agent_passthrough_witness :
    weather_agentE (fun _ : ChatAgent Unit => (Except.error 7 : Except Nat Unit)) () =
      Except.error 7 ∧
    weather_agentE (fun _ : ChatAgent Unit => (Except.ok () : Except Nat Unit)) () =
      Except.ok () :=
  ⟨(weather_agent_passthrough _ ()).1 7 rfl, (weather_agent_passthrough _ ()).2 () rfl⟩

/-- C8: every value `get_weather` returns is one of the five literal records
of the table or the literal default record, all of the `WeatherRecord` shape
(five fields: four integers and a string); the table is a constant. -/
theorem get_weather_record_shape (s : String) :
    get_weather s ∈ weather_data.map Prod.snd ∨ get_weather s = defaultWeather := by
  unfold get_weather
  cases hl : weather_data.lookup (strLower s) with
  | some r => exact Or.inl (mem_map_snd_of_lookup _ _ _ hl)
  | none => exact Or.inr rfl

/-- C9: both tools are deterministic pure computations: with the logger
side channel made explicit, the returned value never depends on the log
state accumulated by earlier calls and always equals the pure function of
the inputs. -/
theorem tools_deterministic (location : String) (days : Int) (g g' : List String) :
    (get_weatherLog location g).1 = get_weather location ∧
    (get_weatherLog location g).1 = (get_weatherLog location g').1 ∧
    (get_forecastLog location days g).1 = get_forecast location days ∧
    (get_forecastLog location days g).1 = (get_forecastLog location days g').1 := by
  refine ⟨?_, ?_, rfl, rfl⟩
  · unfold get_weatherLog get_weather
    cases weather_data.lookup (strLower location) <;> rfl
  · unfold get_weatherLog
    cases weather_data.lookup (strLower location) <;> rfl

/-- C10: normalization is lowercasing only — `get_weather` depends on its
input only through `strLower`, and untrimmed whitespace variants of
"seattle" fall through to the default record. -/
theorem get_weather_lower_only :
    (∀ s t : String, strLower s = strLower t → get_weather s = get_weather t) ∧
    get_weather " seattle" = defaultWeather ∧
    get_weather "seattle " = defaultWeather ∧
    get_weather "seattle" ≠ defaultWeather := by
  refine ⟨fun s t h => ?_, by decide, by decide, by decide⟩
  unfold get_weather
  rw [h]

/-- Witness for C10: two casings of " seattle" map to the same record. -/
theorem get_weather_lower_only_witness :
    strLower " Seattle" = strLower " SEATTLE" ∧
    get_weather " Seattle" = get_weather " SEATTLE" :=
  ⟨by decide, get_weather_lower_only.1 " Seattle" " SEATTLE" (by decide)⟩
